import Mathlib

/-!
Shallow embedding of the holiday Telegram bot (bot.py) and verification of
its specification claims.  Pure helpers of the program (parse_holidays,
load_toasts, build_toast, fetch_holidays, compose_message) are translated
into executable Lean functions; Python exceptions are modelled by the
Except monad, the random draws of random.choice by explicit index
arguments, and the network by oracle functions passed as parameters.
String literals are taken verbatim from the source file decoded as UTF-8.
-/

namespace HolidayBot

/-- Python exception kinds that the modelled code can raise or receive. -/
inductive PyErr where
  | indexError
  | keyError
  | valueError
  | typeError
  | httpError
  | timeoutError
  | connectionError
deriving DecidableEq, Repr

instance {ε α : Type} [DecidableEq ε] [DecidableEq α] : DecidableEq (Except ε α) := fun x y =>
  match x, y with
  | Except.ok a, Except.ok b =>
    if h : a = b then isTrue (by rw [h]) else isFalse (by intro he; cases he; exact h rfl)
  | Except.error a, Except.error b =>
    if h : a = b then isTrue (by rw [h]) else isFalse (by intro he; cases he; exact h rfl)
  | Except.ok _, Except.error _ => isFalse (by intro h; cases h)
  | Except.error _, Except.ok _ => isFalse (by intro h; cases h)

/-- The opening curly brace character, written via its code point. -/
def lbrace : Char := Char.ofNat 123

/-- The closing curly brace character, written via its code point. -/
def rbrace : Char := Char.ofNat 125

/-- Python str.strip on a character list: drop leading and trailing
whitespace.  Models the ASCII-whitespace part of Python semantics, which
covers every string the program manipulates. -/
def stripChars (l : List Char) : List Char :=
  ((l.dropWhile Char.isWhitespace).reverse.dropWhile Char.isWhitespace).reverse

/-- Python str.strip lifted to String. -/
def pyStrip (s : String) : String := String.mk (stripChars s.data)

/-- JSON values as produced by json.loads.  Numbers are modelled as
integers; only the string or non-string distinction matters to the code. -/
inductive Json where
  | null
  | bool (b : Bool)
  | num (n : Int)
  | str (s : String)
  | arr (xs : List Json)
  | obj (kvs : List (String × Json))

/-- Outcome of reading and JSON-decoding the toasts file: the file can be
missing (FileNotFoundError) or fail to decode (json.loads raised). -/
inductive LoadErr where
  | fileNotFound
  | parseError
deriving DecidableEq, Repr

/-- Python iteration over a json.loads result, as performed by the list
comprehension in load_toasts: arrays yield their elements, strings yield
their characters as one-character strings, objects yield their keys, and
every other value raises TypeError. -/
def pyIter : Json → Except PyErr (List Json)
  | Json.arr xs => Except.ok xs
  | Json.str s => Except.ok (s.data.map (fun c => Json.str (String.mk [c])))
  | Json.obj kvs => Except.ok (kvs.map (fun kv => Json.str kv.1))
  | _ => Except.error PyErr.typeError

/-- Translation of load_toasts from bot.py lines 46-55.  The argument
models the combined outcome of reading TOASTS_PATH and json.loads.  The
list comprehension keeps entries t with isinstance(t, str) and t.strip()
truthy; both except branches return the empty list. -/
def load_toasts (input : Except LoadErr Json) : List String :=
  match input with
  | Except.error _ => []
  | Except.ok data =>
    match pyIter data with
    | Except.error _ => []
    | Except.ok items =>
      items.filterMap (fun t =>
        match t with
        | Json.str s => if pyStrip s != "" then some s else none
        | _ => none)

/-- Specification-side view of a JSON entry: its string payload when it
is a string, nothing otherwise. -/
def jsonAsStr : Json → Option String
  | Json.str s => some s
  | _ => none

/-- Specification-side description of the toast loader on a decoded JSON
array: keep the string entries, then drop the blank ones, preserving file
order. -/
def toastSpec (xs : List Json) : List String :=
  (xs.filterMap jsonAsStr).filter (fun s => pyStrip s != "")

/-- An HTML element as far as the program observes it: its attributes and
the text contents of its descendant text nodes, in document order.  A
document is the list of its elements in document order. -/
structure Element where
  attrs : List (String × String)
  texts : List String
deriving DecidableEq, Repr

/-- BeautifulSoup get_text with strip=True: strip each descendant string,
drop the ones that become empty, and concatenate the rest. -/
def getTextStrip (el : Element) : String :=
  String.mk (((el.texts.map (fun s => stripChars s.data)).filter
    (fun l => l != [])).flatten)

/-- The CSS selection soup.select of elements whose itemprop attribute
value is the string text, in document order. -/
def selectItemprop (doc : List Element) : List Element :=
  doc.filter (fun el => el.attrs.lookup "itemprop" == some "text")

/-- The intermediate list built at bot.py line 65: stripped texts of the
selected elements, with empty ones dropped. -/
def extractedTexts (doc : List Element) : List String :=
  ((selectItemprop doc).map getTextStrip).filter (fun s => s != "")

/-- The de-duplication loop of bot.py lines 67-73: a seen set and an
output list that keeps the first occurrence of each name. -/
def dedupLoop : List String → List String → List String
  | [], _ => []
  | x :: xs, seen =>
    if x ∈ seen then dedupLoop xs seen else x :: dedupLoop xs (x :: seen)

/-- Translation of parse_holidays from bot.py lines 61-74. -/
def parse_holidays (doc : List Element) : List String :=
  dedupLoop (extractedTexts doc) []

/-- Specification-side de-duplication, stated independently of the loop in
the source: fold from the left, appending each element not seen so far. -/
def dedupSpec (l : List String) : List String :=
  l.foldl (fun acc x => if x ∈ acc then acc else acc ++ [x]) []

/-- Python dict assignment d[k] = v on an association list: replace the
value in place if the key is present, otherwise append the pair. -/
def dictSet : List (String × String) → String → String → List (String × String)
  | [], k, v => [(k, v)]
  | (k₁, v₁) :: rest, k, v =>
    if k₁ = k then (k, v) :: rest else (k₁, v₁) :: dictSet rest k v

/-- Python dict.update: assign every pair of the second list into the
first, in order. -/
def dictUpdate (d new : List (String × String)) : List (String × String) :=
  new.foldl (fun acc p => dictSet acc p.1 p.2) d

/-- The fixed URL scraped by the bot, bot.py line 29. -/
def HOLIDAY_URL : String := "https://kakoysegodnyaprazdnik.ru/"

/-- The browser user agent string, bot.py lines 30-33. -/
def USER_AGENT : String :=
  "Mozilla/5.0 (Windows NT 10.0; Win64; x64) AppleWebKit/537.36 " ++
  "(KHTML, like Gecko) Chrome/120.0 Safari/537.36"

/-- The default header set, bot.py lines 34-42. -/
def DEFAULT_HEADERS : List (String × String) :=
  [("User-Agent", USER_AGENT),
   ("Accept", "text/html,application/xhtml+xml,application/xml;q=0.9,*/*;q=0.8"),
   ("Accept-Language", "ru-RU,ru;q=0.9,en;q=0.8"),
   ("Referer", HOLIDAY_URL),
   ("Connection", "keep-alive"),
   ("Cache-Control", "no-cache"),
   ("Pragma", "no-cache")]

/-- An HTTP response as far as the program observes it: the status code
and the body, the latter already modelled at the element level. -/
structure Response where
  status : Nat
  body : List Element
deriving DecidableEq, Repr

/-- The inner helper of fetch_holidays (bot.py lines 85-97): issue the GET
through the given network oracle, then raise_for_status, which in the
requests library raises exactly for status codes in the range 400-599. -/
def tryRequest (net : String → List (String × String) → Except PyErr Response)
    (url : String) (headers : List (String × String)) : Except PyErr Response :=
  match net url headers with
  | Except.error e => Except.error e
  | Except.ok r =>
    if 400 ≤ r.status ∧ r.status < 600 then Except.error PyErr.httpError
    else Except.ok r

/-- The header state of the requests session used by fetch_holidays: the
callers own session headers if one was passed, else the fresh session
base, updated in place with DEFAULT_HEADERS (bot.py lines 82-83). -/
def sessionHeaders (freshBase : List (String × String))
    (session : Option (List (String × String))) : List (String × String) :=
  dictUpdate (match session with | some h => h | none => freshBase) DEFAULT_HEADERS

/-- Translation of fetch_holidays from bot.py lines 77-108.  netP and netF
are oracles for the primary requests client and the cloudscraper client;
cloudscraperAvail models whether the cloudscraper import succeeded;
scraperBase and freshBase model the default headers the two client
libraries start with.  The function returns the fetch outcome together
with the final header state of the session, which models the in-place
mutation of a caller-supplied session object. -/
def fetch_holidays (netP netF : String → List (String × String) → Except PyErr Response)
    (cloudscraperAvail : Bool) (scraperBase freshBase : List (String × String))
    (session : Option (List (String × String))) :
    Except PyErr (List String) × List (String × String) :=
  let sessH := sessionHeaders freshBase session
  let result :=
    match tryRequest netP HOLIDAY_URL sessH with
    | Except.ok r => Except.ok (parse_holidays r.body)
    | Except.error e =>
      if cloudscraperAvail then
        match tryRequest netF HOLIDAY_URL (dictUpdate scraperBase DEFAULT_HEADERS) with
        | Except.ok r => Except.ok (parse_holidays r.body)
        | Except.error e₂ => Except.error e₂
      else Except.error e
  (result, sessH)

/-- Python random.choice: the index argument models the random draw; on an
empty sequence random.choice raises IndexError. -/
def randomChoice (i : Nat) (xs : List α) : Except PyErr α :=
  if h : 0 < xs.length then Except.ok (xs.get ⟨i % xs.length, Nat.mod_lt i h⟩)
  else Except.error PyErr.indexError

/-- The field name holiday as a character list. -/
def holidayField : List Char := ['h', 'o', 'l', 'i', 'd', 'a', 'y']

/-- Scanner state for the str.format automaton: copying literal text,
just saw an opening brace, just saw a closing brace, or inside a
replacement field with the name accumulated in reverse. -/
inductive FmtState where
  | lit
  | sawL
  | sawR
  | field (acc : List Char)

/-- CPython str.format scanning as a one-character-per-step automaton,
restricted to the keyword argument holiday and to replacement fields
without conversion or format spec, which covers every template the
program formats.  Literal text is copied; a doubled brace emits one
brace; a lone closing brace or an unterminated field raises ValueError;
an empty field raises IndexError (automatic numbering with no positional
argument); a field other than holiday raises an error, modelled as
KeyError. -/
def fmtAuto (hd : List Char) : FmtState → List Char → Except PyErr (List Char)
  | FmtState.lit, [] => Except.ok []
  | FmtState.lit, c :: rest =>
    if c = lbrace then fmtAuto hd FmtState.sawL rest
    else if c = rbrace then fmtAuto hd FmtState.sawR rest
    else
      match fmtAuto hd FmtState.lit rest with
      | Except.error e => Except.error e
      | Except.ok s => Except.ok (c :: s)
  | FmtState.sawL, [] => Except.error PyErr.valueError
  | FmtState.sawL, c :: rest =>
    if c = lbrace then
      match fmtAuto hd FmtState.lit rest with
      | Except.error e => Except.error e
      | Except.ok s => Except.ok (lbrace :: s)
    else if c = rbrace then Except.error PyErr.indexError
    else fmtAuto hd (FmtState.field [c]) rest
  | FmtState.sawR, [] => Except.error PyErr.valueError
  | FmtState.sawR, c :: rest =>
    if c = rbrace then
      match fmtAuto hd FmtState.lit rest with
      | Except.error e => Except.error e
      | Except.ok s => Except.ok (rbrace :: s)
    else Except.error PyErr.valueError
  | FmtState.field _, [] => Except.error PyErr.valueError
  | FmtState.field acc, c :: rest =>
    if c = rbrace then
      if acc.reverse = holidayField then
        match fmtAuto hd FmtState.lit rest with
        | Except.error e => Except.error e
        | Except.ok s => Except.ok (hd ++ s)
      else Except.error PyErr.keyError
    else fmtAuto hd (FmtState.field (c :: acc)) rest

/-- Python template.format with the single keyword argument holiday. -/
def pyFormat (template : String) (holiday : String) : Except PyErr String :=
  match fmtAuto holiday.data FmtState.lit template.data with
  | Except.error e => Except.error e
  | Except.ok s => Except.ok (String.mk s)

/-- Whether a string contains no brace character at all. -/
def braceFree (s : String) : Bool :=
  s.data.all (fun c => (c != lbrace) && (c != rbrace))

/-- The replacement field for the holiday keyword, an opening brace, the
word holiday and a closing brace. -/
def placeholderS : String := String.mk (lbrace :: holidayField ++ [rbrace])

/-- Translation of build_toast from bot.py lines 111-113; the global
TOAST_TEMPLATES list and the random draw are passed explicitly. -/
def build_toast (iT : Nat) (templates : List String) (holiday : String) :
    Except PyErr String :=
  match randomChoice iT templates with
  | Except.error e => Except.error e
  | Except.ok template => pyFormat template holiday

/-- A calendar date as produced by date.today. -/
structure PyDate where
  year : Nat
  month : Nat
  day : Nat
deriving DecidableEq, Repr

/-- Zero-pad a number below ten to two digits, as the strftime directives
for day and month do. -/
def pad2 (n : Nat) : String := if n < 10 then "0" ++ toString n else toString n

/-- The strftime format string used at bot.py line 126: zero-padded day,
dot, zero-padded month, dot, year. -/
def strftimeDMY (d : PyDate) : String :=
  pad2 d.day ++ "." ++ pad2 d.month ++ "." ++ toString d.year

/-- The fixed message returned when the fetch raised, bot.py line 121,
verbatim from the source file decoded as UTF-8. -/
def siteSilentMsg : String :=
  "–ù–µ –º–æ–≥—É —É–∑–Ω–∞—Ç—å –ø—Ä–∞–∑–¥–Ω–∏–∫–∏ ‚Äî —Å–∞–π—Ç –º–æ–ª—á–∏—Ç. –ü–æ–ø—Ä–æ–±—É–π—Ç–µ –ø–æ–∑–∂–µ."

/-- The fixed message returned when the holiday list is empty, bot.py line
124, verbatim from the source file decoded as UTF-8. -/
def noHolidayMsg : String :=
  "–°–µ–≥–æ–¥–Ω—è –Ω–µ –Ω–∞—à–µ–ª –ø—Ä–∞–∑–¥–Ω–∏–∫–æ–≤. –ù–æ –ø–æ–≤–æ–¥ –ø—Ä–∏–¥—É–º–∞—Ç—å –Ω–µ—Å–ª–æ–∂–Ω–æ üòâ"

/-- The text before the date in the reply header, bot.py line 131. -/
def headerPrefix : String := "–°–µ–≥–æ–¥–Ω—è "

/-- The separator between date and holiday name in the reply header,
bot.py line 131, verbatim from the source file decoded as UTF-8. -/
def emdashSep : String := " ‚Äî "

/-- The reply built at bot.py lines 130-133: the two f-strings
concatenated, which puts three consecutive newline characters between the
holiday name and the toast. -/
def composedReply (d : PyDate) (holiday toast : String) : String :=
  (headerPrefix ++ strftimeDMY d ++ emdashSep ++ holiday ++ "\n\n") ++
  ("\n" ++ toast)

/-- Translation of compose_message from bot.py lines 116-133.  The first
argument models the outcome of awaiting fetch_holidays in a worker
thread: the try block maps any exception to the fixed site-silent
message.  The remaining steps run outside the try block, so any exception
they raise propagates to the caller, which the Except error constructor
models. -/
def compose_message (fetched : Except PyErr (List String)) (d : PyDate)
    (iH iT : Nat) (templates : List String) : Except PyErr String :=
  match fetched with
  | Except.error _ => Except.ok siteSilentMsg
  | Except.ok holidays =>
    if holidays.isEmpty then Except.ok noHolidayMsg
    else
      match randomChoice iH holidays with
      | Except.error e => Except.error e
      | Except.ok holiday =>
        match build_toast iT templates holiday with
        | Except.error e => Except.error e
        | Except.ok toast => Except.ok (composedReply d holiday toast)

/-! Helper lemmas about strings, random choice and the composer. -/

theorem sdata_append (s t : String) : (s ++ t).data = s.data ++ t.data := by
  cases s
  cases t
  rfl

theorem smk_data (s : String) : String.mk s.data = s := by
  cases s
  rfl

theorem sapp_assoc (a b c : String) : a ++ b ++ c = a ++ (b ++ c) := by
  cases a
  cases b
  cases c
  exact congrArg String.mk (List.append_assoc _ _ _)

theorem randomChoice_pos {α : Type} (i : Nat) (xs : List α) (h : 0 < xs.length) :
    randomChoice i xs = Except.ok (xs.get ⟨i % xs.length, Nat.mod_lt i h⟩) :=
  dif_pos h

theorem randomChoice_nil {α : Type} (i : Nat) :
    randomChoice i ([] : List α) = Except.error PyErr.indexError := rfl

theorem compose_message_ok (d : PyDate) (hs tpl : List String) (iH iT : Nat)
    (h toast : String) (h₁ : randomChoice iH hs = Except.ok h)
    (h₂ : build_toast iT tpl h = Except.ok toast) :
    compose_message (Except.ok hs) d iH iT tpl = Except.ok (composedReply d h toast) := by
  cases hs with
  | nil => simp [randomChoice] at h₁
  | cons a as =>
    simp only [compose_message, List.isEmpty_cons, h₁, h₂]
    rfl

theorem composedReply_eq (d : PyDate) (h t : String) :
    composedReply d h t =
      headerPrefix ++ strftimeDMY d ++ emdashSep ++ h ++ "\n\n\n" ++ t := by
  have h₃ : ("\n\n" : String) ++ "\n" = "\n\n\n" := by decide
  simp only [composedReply, sapp_assoc]
  rw [← sapp_assoc ("\n\n" : String) "\n" t, h₃]

/-- C1: whenever the fetch raised any exception, compose_message returns
the fixed site-silent Russian message; the error value never propagates,
whatever the date, random draws and template store are. -/
theorem compose_message_fetch_error_caught :
    ∀ (e : PyErr) (d : PyDate) (iH iT : Nat) (tpl : List String),
      compose_message (Except.error e) d iH iT tpl = Except.ok siteSilentMsg :=
  fun _ _ _ _ _ => rfl

/-- C3: when the fetch succeeded with an empty holiday list,
compose_message returns the fixed no-holiday message, a normal outcome
whose text differs from the fetch-failure message. -/
theorem compose_message_empty_holidays :
    (∀ (d : PyDate) (iH iT : Nat) (tpl : List String),
      compose_message (Except.ok []) d iH iT tpl = Except.ok noHolidayMsg) ∧
    noHolidayMsg ≠ siteSilentMsg :=
  ⟨fun _ _ _ _ => rfl, by decide⟩

/-- C5 counterexample: with a successful fetch, a non-empty holiday list
and an empty toast template store, compose_message does not return user
visible text: the IndexError raised by random.choice inside build_toast
escapes compose_message, because only the fetch is guarded by the try
block.  This refutes the part of the claim stating that the failure does
not escape the Composer boundary. -/
theorem compose_message_empty_templates_escape :
    compose_message (Except.ok ["A"]) ⟨2024, 1, 2⟩ 0 0 [] =
      Except.error PyErr.indexError := by decide

/-- C5 amended: fetch errors are caught at the Composer boundary and
converted to the fixed user-visible message, and with an empty template
store template selection fails explicitly with IndexError, but that
failure escapes compose_message to the caller. -/
theorem compose_message_boundary_amended :
    (∀ (e : PyErr) (d : PyDate) (iH iT : Nat) (tpl : List String),
       compose_message (Except.error e) d iH iT tpl = Except.ok siteSilentMsg) ∧
    (∀ (d : PyDate) (iH iT : Nat) (hs : List String), hs ≠ [] →
       compose_message (Except.ok hs) d iH iT [] = Except.error PyErr.indexError) := by
  refine ⟨fun _ _ _ _ _ => rfl, ?_⟩
  intro d iH iT hs hne
  cases hs with
  | nil => exact absurd rfl hne
  | cons a as =>
    have hpos : 0 < (a :: as).length := by simp
    simp only [compose_message, List.isEmpty_cons, randomChoice_pos iH (a :: as) hpos,
      build_toast, randomChoice_nil]
    rfl

/-- C5 amended witness at a concrete input. -/
theorem compose_message_boundary_amended_witness :
    compose_message (Except.ok ["X", "Y"]) ⟨2025, 12, 31⟩ 7 3 [] =
      Except.error PyErr.indexError :=
  compose_message_boundary_amended.2 ⟨2025, 12, 31⟩ 7 3 ["X", "Y"] (by decide)

/-- C4 counterexample: at a concrete date, holiday and template, the
reply separates the holiday name from the toast with three consecutive
newline characters, that is two blank lines, not with the single blank
line the claim states. -/
theorem compose_message_two_blank_lines :
    compose_message (Except.ok ["A"]) ⟨2024, 1, 2⟩ 0 0 ["T"] =
      Except.ok (headerPrefix ++ strftimeDMY ⟨2024, 1, 2⟩ ++ emdashSep ++ "A" ++
        "\n\n\n" ++ "T") ∧
    compose_message (Except.ok ["A"]) ⟨2024, 1, 2⟩ 0 0 ["T"] ≠
      Except.ok (headerPrefix ++ strftimeDMY ⟨2024, 1, 2⟩ ++ emdashSep ++ "A" ++
        "\n\n" ++ "T") := by
  constructor <;> decide

/-- C4 amended: for every successful composition, the reply is the header
prefix, the date formatted as zero-padded day dot month dot year, the
separator written in the source, the chosen holiday, then three
consecutive newline characters, that is two blank lines, then the toast. -/
theorem compose_message_reply_format :
    ∀ (d : PyDate) (hs tpl : List String) (iH iT : Nat) (h toast : String),
      randomChoice iH hs = Except.ok h →
      build_toast iT tpl h = Except.ok toast →
      compose_message (Except.ok hs) d iH iT tpl =
        Except.ok (headerPrefix ++ strftimeDMY d ++ emdashSep ++ h ++ "\n\n\n" ++ toast) := by
  intro d hs tpl iH iT h toast h₁ h₂
  rw [compose_message_ok d hs tpl iH iT h toast h₁ h₂, composedReply_eq]

/-- C4 amended witness at a concrete input. -/
theorem compose_message_reply_format_witness :
    compose_message (Except.ok ["B"]) ⟨2025, 3, 4⟩ 0 0 ["ura"] =
      Except.ok (headerPrefix ++ strftimeDMY ⟨2025, 3, 4⟩ ++ emdashSep ++ "B" ++
        "\n\n\n" ++ "ura") :=
  compose_message_reply_format ⟨2025, 3, 4⟩ ["B"] ["ura"] 0 0 "B" "ura"
    (by decide) (by decide)

/-! Lemmas about the de-duplication loop of parse_holidays. -/

theorem dedupLoop_sublist : ∀ (l seen : List String), List.Sublist (dedupLoop l seen) l := by
  intro l
  induction l with
  | nil => intro seen; simp [dedupLoop]
  | cons x xs ih =>
    intro seen
    simp only [dedupLoop]
    split
    · exact (ih seen).cons x
    · exact (ih (x :: seen)).cons₂ x

theorem dedupLoop_mem :
    ∀ (l seen : List String) (x : String),
      x ∈ dedupLoop l seen ↔ x ∈ l ∧ x ∉ seen := by
  intro l
  induction l with
  | nil => intro seen x; simp [dedupLoop]
  | cons y ys ih =>
    intro seen x
    simp only [dedupLoop]
    by_cases hy : y ∈ seen
    · rw [if_pos hy, ih]
      constructor
      · rintro ⟨h₁, h₂⟩
        exact ⟨List.mem_cons_of_mem y h₁, h₂⟩
      · rintro ⟨h₁, h₂⟩
        rcases List.mem_cons.mp h₁ with he | hm
        · subst he
          exact absurd hy h₂
        · exact ⟨hm, h₂⟩
    · rw [if_neg hy]
      constructor
      · intro hmem
        rcases List.mem_cons.mp hmem with he | hm
        · subst he
          exact ⟨List.mem_cons_self x ys, hy⟩
        · obtain ⟨h₁, h₂⟩ := (ih (y :: seen) x).mp hm
          exact ⟨List.mem_cons_of_mem y h₁, fun hs => h₂ (List.mem_cons_of_mem y hs)⟩
      · rintro ⟨h₁, h₂⟩
        by_cases hxy : x = y
        · subst hxy
          exact List.mem_cons_self x _
        · rcases List.mem_cons.mp h₁ with he | hm
          · exact absurd he hxy
          · refine List.mem_cons_of_mem y ((ih (y :: seen) x).mpr ⟨hm, fun hs => ?_⟩)
            rcases List.mem_cons.mp hs with he | hm₂
            · exact hxy he
            · exact h₂ hm₂

theorem dedupLoop_nodup : ∀ (l seen : List String), (dedupLoop l seen).Nodup := by
  intro l
  induction l with
  | nil => intro seen; simp [dedupLoop]
  | cons y ys ih =>
    intro seen
    simp only [dedupLoop]
    split
    · exact ih seen
    · refine List.nodup_cons.mpr ⟨fun hmem => ?_, ih (y :: seen)⟩
      exact ((dedupLoop_mem ys (y :: seen) y).mp hmem).2 (List.mem_cons_self y seen)

theorem dedupLoop_foldl :
    ∀ (l acc seen : List String), (∀ x, x ∈ seen ↔ x ∈ acc) →
      l.foldl (fun acc x => if x ∈ acc then acc else acc ++ [x]) acc =
        acc ++ dedupLoop l seen := by
  intro l
  induction l with
  | nil => intro acc seen _; simp [dedupLoop]
  | cons y ys ih =>
    intro acc seen hiff
    by_cases hy : y ∈ acc
    · have hys : y ∈ seen := (hiff y).mpr hy
      simp only [List.foldl_cons, if_pos hy, dedupLoop, if_pos hys]
      exact ih acc seen hiff
    · have hys : y ∉ seen := fun hs => hy ((hiff y).mp hs)
      simp only [List.foldl_cons, if_neg hy, dedupLoop, if_neg hys]
      rw [ih (acc ++ [y]) (y :: seen) (by intro x; simp [hiff, List.mem_cons, or_comm])]
      simp [List.append_assoc]

/-- C2: parse_holidays returns the stripped, non-empty text contents of
the elements carrying the itemprop text attribute, de-duplicated by
exact string equality with first occurrence order kept, equivalently a
duplicate-free sublist of the extracted texts with the same members and
equal to the left-fold de-duplication of the extracted texts; on three
marked elements with texts A, B, A it returns the list A, B. -/
theorem parse_holidays_extracts_dedup :
    (∀ doc : List Element,
      parse_holidays doc = dedupSpec (extractedTexts doc) ∧
      (parse_holidays doc).Nodup ∧
      List.Sublist (parse_holidays doc) (extractedTexts doc) ∧
      (∀ s, s ∈ parse_holidays doc ↔ s ∈ extractedTexts doc)) ∧
    parse_holidays
      [⟨[("itemprop", "text")], ["A"]⟩, ⟨[("itemprop", "text")], ["B"]⟩,
       ⟨[("itemprop", "text")], ["A"]⟩] = ["A", "B"] := by
  constructor
  · intro doc
    refine ⟨?_, dedupLoop_nodup _ [], dedupLoop_sublist _ [], fun s => ?_⟩
    · rw [parse_holidays, dedupSpec, dedupLoop_foldl _ [] [] (by simp)]
      simp
    · rw [parse_holidays, dedupLoop_mem]
      simp
  · decide

/-! Lemmas about the toast loader. -/

theorem filterMap_toastSpec :
    ∀ xs : List Json,
      (xs.filterMap (fun t =>
        match t with
        | Json.str s => if pyStrip s != "" then some s else none
        | _ => none)) = toastSpec xs := by
  intro xs
  induction xs with
  | nil => rfl
  | cons j js ih =>
    cases j with
    | str s =>
      cases hc : (pyStrip s != "") <;>
        simp_all [List.filterMap_cons, toastSpec, jsonAsStr, List.filter_cons]
    | null => simp_all [List.filterMap_cons, toastSpec, jsonAsStr]
    | bool b => simp_all [List.filterMap_cons, toastSpec, jsonAsStr]
    | num n => simp_all [List.filterMap_cons, toastSpec, jsonAsStr]
    | arr xs => simp_all [List.filterMap_cons, toastSpec, jsonAsStr]
    | obj kvs => simp_all [List.filterMap_cons, toastSpec, jsonAsStr]

/-- C6: the toast loader returns the empty list for every missing or
undecodable file and raises nothing past its boundary; on a decoded JSON
array it keeps exactly the string entries that are not blank after
stripping, in file order; a decoded non-iterable value also yields the
empty list because the TypeError is caught; a concrete mixed array keeps
only its non-blank strings. -/
theorem load_toasts_spec :
    (∀ e, load_toasts (Except.error e) = []) ∧
    (∀ xs, load_toasts (Except.ok (Json.arr xs)) = toastSpec xs) ∧
    load_toasts (Except.ok (Json.num 3)) = [] ∧
    load_toasts (Except.ok (Json.arr
      [Json.str "a", Json.num 1, Json.str " ", Json.str "b"])) = ["a", "b"] := by
  refine ⟨fun e => rfl, fun xs => ?_, rfl, by decide⟩
  simp only [load_toasts, pyIter]
  exact filterMap_toastSpec xs

/-! Lemmas about the format automaton. -/

theorem braceFree_spec (t : String) (ht : braceFree t = true) :
    ∀ c ∈ t.data, c ≠ lbrace ∧ c ≠ rbrace := by
  intro c hc
  have h := List.all_eq_true.mp ht c hc
  simp only [Bool.and_eq_true, bne_iff_ne, ne_eq] at h
  exact h

theorem fmtAuto_lit_braceFree (hd : List Char) :
    ∀ l : List Char, (∀ c ∈ l, c ≠ lbrace ∧ c ≠ rbrace) →
      fmtAuto hd FmtState.lit l = Except.ok l := by
  intro l
  induction l with
  | nil => intro _; rfl
  | cons c rest ih =>
    intro h
    have hc := h c (List.mem_cons_self c rest)
    simp only [fmtAuto, if_neg hc.1, if_neg hc.2]
    rw [ih (fun x hx => h x (List.mem_cons_of_mem c hx))]

theorem fmtAuto_lit_append (hd : List Char) :
    ∀ (a l : List Char), (∀ c ∈ a, c ≠ lbrace ∧ c ≠ rbrace) →
      fmtAuto hd FmtState.lit (a ++ l) =
        match fmtAuto hd FmtState.lit l with
        | Except.error e => Except.error e
        | Except.ok s => Except.ok (a ++ s) := by
  intro a
  induction a with
  | nil =>
    intro l _
    simp only [List.nil_append]
    cases fmtAuto hd FmtState.lit l <;> rfl
  | cons c a₁ ih =>
    intro l h
    have hc := h c (List.mem_cons_self c a₁)
    simp only [List.cons_append, fmtAuto, if_neg hc.1, if_neg hc.2, List.append_eq]
    rw [ih l (fun x hx => h x (List.mem_cons_of_mem c hx))]
    cases fmtAuto hd FmtState.lit l <;> rfl

theorem fmtAuto_field_run (hd : List Char) :
    ∀ (f acc l : List Char), (∀ c ∈ f, c ≠ rbrace) →
      fmtAuto hd (FmtState.field acc) (f ++ l) =
        fmtAuto hd (FmtState.field (f.reverse ++ acc)) l := by
  intro f
  induction f with
  | nil => intro acc l _; simp
  | cons c f₁ ih =>
    intro acc l h
    have hc := h c (List.mem_cons_self c f₁)
    simp only [List.cons_append, fmtAuto, if_neg hc, List.append_eq]
    rw [ih (c :: acc) l (fun x hx => h x (List.mem_cons_of_mem c hx))]
    simp [List.append_assoc]

theorem fmtAuto_placeholder (hd : List Char) (b : List Char) :
    fmtAuto hd FmtState.lit (lbrace :: (holidayField ++ (rbrace :: b))) =
      match fmtAuto hd FmtState.lit b with
      | Except.error e => Except.error e
      | Except.ok s => Except.ok (hd ++ s) := by
  have h₁ : holidayField ++ (rbrace :: b) =
      'h' :: (['o', 'l', 'i', 'd', 'a', 'y'] ++ (rbrace :: b)) := rfl
  rw [show fmtAuto hd FmtState.lit (lbrace :: (holidayField ++ (rbrace :: b))) =
        fmtAuto hd FmtState.sawL (holidayField ++ (rbrace :: b)) from by
      simp [fmtAuto]]
  rw [h₁]
  rw [show fmtAuto hd FmtState.sawL
        ('h' :: (['o', 'l', 'i', 'd', 'a', 'y'] ++ (rbrace :: b))) =
        fmtAuto hd (FmtState.field ['h'])
          (['o', 'l', 'i', 'd', 'a', 'y'] ++ (rbrace :: b)) from by
      simp [fmtAuto, lbrace, rbrace]]
  rw [fmtAuto_field_run hd ['o', 'l', 'i', 'd', 'a', 'y'] ['h'] (rbrace :: b)
    (by decide)]
  rw [show (['o', 'l', 'i', 'd', 'a', 'y'].reverse ++ ['h'] : List Char) =
    ['y', 'a', 'd', 'i', 'l', 'o', 'h'] from rfl]
  simp [fmtAuto, holidayField]

theorem pyFormat_braceFree (t h : String) (ht : braceFree t = true) :
    pyFormat t h = Except.ok t := by
  unfold pyFormat
  rw [fmtAuto_lit_braceFree h.data t.data (braceFree_spec t ht)]

theorem pyFormat_placeholder (a b h : String)
    (ha : braceFree a = true) (hb : braceFree b = true) :
    pyFormat (a ++ placeholderS ++ b) h = Except.ok (a ++ h ++ b) := by
  unfold pyFormat
  have hdata : (a ++ placeholderS ++ b).data =
      a.data ++ (lbrace :: (holidayField ++ (rbrace :: b.data))) := by
    simp [sdata_append, placeholderS, List.append_assoc]
  rw [hdata, fmtAuto_lit_append h.data a.data _ (braceFree_spec a ha),
    fmtAuto_placeholder, fmtAuto_lit_braceFree h.data b.data (braceFree_spec b hb)]
  have hout : a.data ++ (h.data ++ b.data) = (a ++ h ++ b).data := by
    simp [sdata_append, List.append_assoc]
  show Except.ok (String.mk (a.data ++ (h.data ++ b.data))) = Except.ok (a ++ h ++ b)
  rw [hout, smk_data]

/-- C9 counterexample: the template consisting of a single closing brace
contains no opening brace, hence no replacement field, yet build_toast
raises ValueError on it instead of returning it unchanged. -/
theorem build_toast_lone_brace_raises :
    (String.mk [rbrace]).data.count lbrace = 0 ∧
    build_toast 0 [String.mk [rbrace]] "A" = Except.error PyErr.valueError := by
  constructor <;> decide

/-- C9 amended: for every chosen template that contains no brace
character at all, build_toast returns the template unchanged and raises
no error, silently ignoring the holiday argument. -/
theorem build_toast_braceFree_unchanged :
    ∀ (tpl : List String) (i : Nat) (t h : String),
      randomChoice i tpl = Except.ok t → braceFree t = true →
      build_toast i tpl h = Except.ok t := by
  intro tpl i t h h₁ h₂
  simp only [build_toast, h₁]
  exact pyFormat_braceFree t h h₂

/-- C9 amended witness at a concrete input. -/
theorem build_toast_braceFree_unchanged_witness :
    build_toast 0 ["za zdorovie"] "X" = Except.ok "za zdorovie" :=
  build_toast_braceFree_unchanged ["za zdorovie"] 0 "za zdorovie" "X"
    (by decide) (by decide)

/-- C8 counterexample: with holiday A and the template that is exactly
the holiday placeholder, the reply contains the character A twice, once
in the header line after the separator and once at the placeholder
position, refuting the claim that the output contains the holiday
exactly once. -/
theorem compose_message_holiday_twice :
    compose_message (Except.ok ["A"]) ⟨2024, 6, 5⟩ 0 0 [placeholderS] =
      Except.ok (composedReply ⟨2024, 6, 5⟩ "A" "A") ∧
    (composedReply ⟨2024, 6, 5⟩ "A" "A").data.count 'A' = 2 ∧
    (composedReply ⟨2024, 6, 5⟩ "A" "A").data.count 'A' ≠ 1 := by
  refine ⟨by decide, by decide, by decide⟩

/-- C8 amended: when the chosen template is brace-free text around one
holiday placeholder, the reply is the header, which itself contains the
chosen holiday after the separator, followed by the template text with
the holiday substituted at the placeholder position. -/
theorem compose_message_placeholder_subst :
    ∀ (d : PyDate) (hs tpl : List String) (iH iT : Nat) (h a b : String),
      randomChoice iH hs = Except.ok h →
      randomChoice iT tpl = Except.ok (a ++ placeholderS ++ b) →
      braceFree a = true → braceFree b = true →
      compose_message (Except.ok hs) d iH iT tpl =
        Except.ok (headerPrefix ++ strftimeDMY d ++ emdashSep ++ h ++ "\n\n\n" ++
          (a ++ h ++ b)) := by
  intro d hs tpl iH iT h a b h₁ h₂ ha hb
  have htoast : build_toast iT tpl h = Except.ok (a ++ h ++ b) := by
    simp only [build_toast, h₂]
    exact pyFormat_placeholder a b h ha hb
  rw [compose_message_ok d hs tpl iH iT h (a ++ h ++ b) h₁ htoast, composedReply_eq]

/-- C8 amended witness at a concrete input. -/
theorem compose_message_placeholder_subst_witness :
    compose_message (Except.ok ["X"]) ⟨2024, 1, 2⟩ 0 0 ["za " ++ placeholderS ++ "!"] =
      Except.ok (headerPrefix ++ strftimeDMY ⟨2024, 1, 2⟩ ++ emdashSep ++ "X" ++
        "\n\n\n" ++ ("za " ++ "X" ++ "!")) :=
  compose_message_placeholder_subst ⟨2024, 1, 2⟩ ["X"] ["za " ++ placeholderS ++ "!"]
    0 0 "X" "za " "!" (by decide) (by decide) (by decide) (by decide)

/-! Lemmas about header dictionaries. -/

theorem lookup_dictSet_self (d : List (String × String)) (k v : String) :
    List.lookup k (dictSet d k v) = some v := by
  induction d with
  | nil => simp [dictSet, List.lookup]
  | cons p rest ih =>
    obtain ⟨k₁, v₁⟩ := p
    by_cases hk : k₁ = k
    · simp [dictSet, hk, List.lookup]
    · simp only [dictSet, if_neg hk, List.lookup]
      cases hbeq : k == k₁ with
      | true => exact absurd (beq_iff_eq.mp hbeq) (Ne.symm hk)
      | false => exact ih

theorem lookup_dictSet_ne (d : List (String × String)) (k k₁ v : String)
    (h : k ≠ k₁) : List.lookup k (dictSet d k₁ v) = List.lookup k d := by
  induction d with
  | nil =>
    simp only [dictSet, List.lookup]
    cases hbeq : k == k₁ with
    | true => exact absurd (beq_iff_eq.mp hbeq) h
    | false => rfl
  | cons p rest ih =>
    obtain ⟨k₂, v₂⟩ := p
    by_cases hk : k₂ = k₁
    · have hkk : k ≠ k₂ := fun he => h (he.trans hk)
      simp only [dictSet, if_pos hk, List.lookup]
      cases hbeq : k == k₁ with
      | true => exact absurd (beq_iff_eq.mp hbeq) h
      | false =>
        cases hbeq₂ : k == k₂ with
        | true => exact absurd (beq_iff_eq.mp hbeq₂) hkk
        | false => rfl
    · simp only [dictSet, if_neg hk, List.lookup]
      cases hbeq : k == k₂ with
      | true => rfl
      | false => exact ih

theorem lookup_dictUpdate_not_mem :
    ∀ (new base : List (String × String)) (k : String),
      (∀ p ∈ new, p.1 ≠ k) →
      List.lookup k (dictUpdate base new) = List.lookup k base := by
  intro new
  induction new with
  | nil => intro base k _; rfl
  | cons p rest ih =>
    intro base k h
    obtain ⟨k₁, v₁⟩ := p
    have h₁ : k₁ ≠ k := h (k₁, v₁) (List.mem_cons_self _ _)
    have h₂ : List.lookup k (dictUpdate (dictSet base k₁ v₁) rest) =
        List.lookup k (dictSet base k₁ v₁) :=
      ih (dictSet base k₁ v₁) k (fun p hp => h p (List.mem_cons_of_mem _ hp))
    simp only [dictUpdate, List.foldl_cons] at h₂ ⊢
    rw [h₂, lookup_dictSet_ne base k k₁ v₁ (Ne.symm h₁)]

theorem lookup_dictUpdate_default (base : List (String × String)) :
    ∀ k v, (k, v) ∈ DEFAULT_HEADERS →
      List.lookup k (dictUpdate base DEFAULT_HEADERS) = some v := by
  intro k v hm
  fin_cases hm <;>
    simp only [dictUpdate, DEFAULT_HEADERS, List.foldl_cons, List.foldl_nil] <;>
    repeat rw [lookup_dictSet_ne _ _ _ _ (by decide)]
  all_goals rw [lookup_dictSet_self]

/-- C7 counterexample: a primary response with status 304, which is not
a 2xx status, does not escalate to the configured fallback client: the
requests raise_for_status helper only raises for statuses 400 to 599, so
fetch_holidays parses the primary body and never consults the fallback,
refuting the claim that any non-2xx response triggers the fallback. -/
theorem fetch_holidays_304_no_fallback :
    (fetch_holidays
      (fun _ _ => Except.ok ⟨304, [⟨[("itemprop", "text")], ["X"]⟩]⟩)
      (fun _ _ => Except.ok ⟨200, [⟨[("itemprop", "text")], ["Y"]⟩]⟩)
      true [] [] none).1 = Except.ok ["X"] ∧
    parse_holidays [⟨[("itemprop", "text")], ["Y"]⟩] = ["Y"] ∧
    ¬(200 ≤ 304 ∧ 304 < 300) ∧
    (Except.ok ["X"] : Except PyErr (List String)) ≠ Except.ok ["Y"] := by
  refine ⟨by decide, by decide, by decide, by decide⟩

/-- C7 amended: when the primary GET raises or returns a 4xx or 5xx
status, fetch_holidays escalates to the fallback client when one is
configured, re-issuing the GET to the same URL with the default header
set applied on top of the fallback client base headers, and returns the
fallback outcome; when no fallback client is configured, the primary
failure propagates out of fetch_holidays. -/
theorem fetch_holidays_fallback :
    ∀ (netP netF : String → List (String × String) → Except PyErr Response)
      (scraperBase freshBase : List (String × String))
      (sess : Option (List (String × String))) (e : PyErr),
      tryRequest netP HOLIDAY_URL (sessionHeaders freshBase sess) = Except.error e →
      ((fetch_holidays netP netF true scraperBase freshBase sess).1 =
        (match tryRequest netF HOLIDAY_URL (dictUpdate scraperBase DEFAULT_HEADERS) with
         | Except.ok r => Except.ok (parse_holidays r.body)
         | Except.error e₂ => Except.error e₂) ∧
       (fetch_holidays netP netF false scraperBase freshBase sess).1 = Except.error e ∧
       (∀ k v, (k, v) ∈ DEFAULT_HEADERS →
         List.lookup k (dictUpdate scraperBase DEFAULT_HEADERS) = some v)) := by
  intro netP netF scraperBase freshBase sess e h
  refine ⟨?_, ?_, lookup_dictUpdate_default scraperBase⟩
  · simp only [fetch_holidays, h]
    rfl
  · simp only [fetch_holidays, h]
    rfl

/-- C7 amended witness at a concrete input. -/
theorem fetch_holidays_fallback_witness :
    (fetch_holidays (fun _ _ => Except.error PyErr.timeoutError)
      (fun _ _ => Except.ok ⟨200, []⟩) false [] [] none).1 =
      Except.error PyErr.timeoutError :=
  (fetch_holidays_fallback (fun _ _ => Except.error PyErr.timeoutError)
    (fun _ _ => Except.ok ⟨200, []⟩) [] [] none PyErr.timeoutError (by decide)).2.1

/-- C10: when a caller passes its own session, fetch_holidays merges the
default header set into the session headers before the request and
returns with the session in that merged state: every default header pair
is present afterwards, and every key not named by the default header set
keeps its previous value. -/
theorem fetch_holidays_mutates_session :
    ∀ (netP netF : String → List (String × String) → Except PyErr Response)
      (avail : Bool) (scraperBase freshBase h : List (String × String)),
      (fetch_holidays netP netF avail scraperBase freshBase (some h)).2 =
        dictUpdate h DEFAULT_HEADERS ∧
      (∀ k v, (k, v) ∈ DEFAULT_HEADERS →
        List.lookup k (fetch_holidays netP netF avail scraperBase freshBase (some h)).2 =
          some v) ∧
      (∀ k, (∀ p ∈ DEFAULT_HEADERS, p.1 ≠ k) →
        List.lookup k (fetch_holidays netP netF avail scraperBase freshBase (some h)).2 =
          List.lookup k h) := by
  intro netP netF avail scraperBase freshBase h
  refine ⟨rfl, fun k v hm => ?_, fun k hk => ?_⟩
  · exact lookup_dictUpdate_default h k v hm
  · exact lookup_dictUpdate_not_mem DEFAULT_HEADERS h k hk

/-- C10 witness at a concrete input. -/
theorem fetch_holidays_mutates_session_witness :
    List.lookup "Pragma"
      ((fetch_holidays (fun _ _ => Except.error PyErr.timeoutError)
        (fun _ _ => Except.error PyErr.timeoutError) false [] []
        (some [("X-Test", "1")])).2) = some "no-cache" ∧
    List.lookup "X-Test"
      ((fetch_holidays (fun _ _ => Except.error PyErr.timeoutError)
        (fun _ _ => Except.error PyErr.timeoutError) false [] []
        (some [("X-Test", "1")])).2) = some "1" :=
  ⟨(fetch_holidays_mutates_session (fun _ _ => Except.error PyErr.timeoutError)
      (fun _ _ => Except.error PyErr.timeoutError) false [] [] [("X-Test", "1")]).2.1
      "Pragma" "no-cache" (by decide),
   by
    rw [(fetch_holidays_mutates_session (fun _ _ => Except.error PyErr.timeoutError)
      (fun _ _ => Except.error PyErr.timeoutError) false [] [] [("X-Test", "1")]).2.2
      "X-Test" (by decide)]
    decide⟩

end HolidayBot
